import Mathlib

/-!
Verification of the decline-curve-analysis core of the well-decline-analysis
repository (Scripts/03_decline_curve_analysis.py).

The Python floating-point quantities are modelled by real numbers.  Pure-Python
scalar division by zero raises ZeroDivisionError; where the source can raise it
(the t_max division in calculate_eur) the embedding returns an explicit error
value.  The NumPy division 0/0 inside the r_squared computation produces a
non-finite value (NaN) without raising; that is modelled by an Option that is
none exactly when the divisor ss_tot is zero.
-/

noncomputable section

/-- The only exception the modelled arithmetic can raise: Python's
ZeroDivisionError, produced by scalar division by zero. -/
inductive PyError where
  | zeroDivisionError

/-- Source lines 28-40: hyperbolic_decline(t, qi, Di, b) = qi / ((1 + b*Di*t) ** (1/b)).
There is no special case for b = 0: the general formula is evaluated as written.
Under NumPy float semantics the b = 0 evaluation yields 1/b = inf and
(1 + 0)**inf = 1, so the value is qi; the Lean convention 1/0 = 0 gives
1 ** 0 = 1 and hence the same value qi. -/
def hyperbolic_decline (t qi Di b : ℝ) : ℝ :=
  qi / ((1 + b * Di * t) ^ ((1 : ℝ) / b))

/-- Source line 56: t_max = ((qi/economic_limit)**b - 1) / (b * Di), the time at
which the fitted rate reaches the economic limit (general hyperbolic inversion,
no exponential branch). -/
def t_max (qi Di b economic_limit : ℝ) : ℝ :=
  ((qi / economic_limit) ^ b - 1) / (b * Di)

/-- np.linspace(a, b, n): n evenly spaced points from a to b inclusive. -/
def linspace (a b : ℝ) (n : ℕ) : List ℝ :=
  (List.range n).map (fun i => a + (b - a) * i / ((n : ℝ) - 1))

/-- Trapezoid accumulation over a list of (x, y) sample points. -/
def trapzAux : List (ℝ × ℝ) → ℝ
  | (x1, y1) :: (x2, y2) :: rest =>
      (x2 - x1) * (y1 + y2) / 2 + trapzAux ((x2, y2) :: rest)
  | _ => 0

/-- np.trapz(y, x): composite trapezoidal rule of samples y at points x. -/
def np_trapz (y x : List ℝ) : ℝ := trapzAux (x.zip y)

/-- Source lines 43-63: calculate_eur(qi, Di, b, economic_limit).  The Python
body divides qi by economic_limit and then divides by b * Di while computing
t_max; with plain Python scalars either divisor being zero raises
ZeroDivisionError, modelled by the error branch.  Otherwise it integrates
hyperbolic_decline over np.linspace(0, t_max, 1000) with np.trapz. -/
def calculate_eur (qi Di b economic_limit : ℝ) : Except PyError ℝ :=
  if economic_limit = 0 ∨ b * Di = 0 then
    Except.error PyError.zeroDivisionError
  else
    Except.ok (np_trapz
      ((linspace 0 (t_max qi Di b economic_limit) 1000).map
        (fun t => hyperbolic_decline t qi Di b))
      (linspace 0 (t_max qi Di b economic_limit) 1000))

/-- np.mean(q): arithmetic mean of the observed window. -/
def mean (q : List ℝ) : ℝ := q.sum / q.length

/-- Source line 149: ss_res = np.sum((q - q_pred) ** 2), the elementwise sum of
squared residuals of the observed window against the fitted predictions. -/
def ss_res (q q_pred : List ℝ) : ℝ :=
  ((q.zip q_pred).map (fun p => (p.1 - p.2) ^ 2)).sum

/-- Source line 150: ss_tot = np.sum((q - np.mean(q)) ** 2), the total sum of
squares of the observed window around its mean. -/
def ss_tot (q : List ℝ) : ℝ :=
  (q.map (fun x => (x - mean q) ^ 2)).sum

/-- Source line 151: r_squared = 1 - (ss_res / ss_tot).  When ss_tot = 0 the
NumPy float division produces a non-finite value (NaN for 0/0) without raising;
that undefined outcome is modelled by none. -/
def r_squared (q q_pred : List ℝ) : Option ℝ :=
  if ss_tot q = 0 then none else some (1 - ss_res q q_pred / ss_tot q)

/-- One row of the daily production table: a calendar date (year, month, day)
plus the three measured volumes (source query, lines 84-92). -/
structure Observation where
  year : ℕ
  month : ℕ
  day : ℕ
  oil_volume : ℝ
  gas_volume : ℝ
  water_volume : ℝ

/-- One aggregated monthly row (source lines 103-112): the calendar-month key,
the per-month volume sums, and the 0-based sequential index assigned by
monthly['months_on_production'] = range(len(monthly)). -/
structure MonthlyPeriod where
  year_month : ℕ
  oil_volume : ℝ
  gas_volume : ℝ
  water_volume : ℝ
  months_on_production : ℕ

/-- df['production_date'].dt.to_period('M'): the year+month grouping key of an
observation, linearised as a month count. -/
def monthKey (o : Observation) : ℕ := o.year * 12 + o.month

/-- The distinct calendar-month keys of the observations in ascending order:
pandas groupby sorts its group keys. -/
def sorted_month_keys (obs : List Observation) : List ℕ :=
  List.insertionSort (fun a b => a ≤ b) ((obs.map monthKey).dedup)

/-- Source lines 103-112: group the observations by calendar month, sum the
oil/gas/water volumes of each group, and emit one MonthlyPeriod per group in
key order with months_on_production = range(len(monthly)). -/
noncomputable def aggregate (obs : List Observation) : List MonthlyPeriod :=
  (List.range (sorted_month_keys obs).length).map (fun i =>
    ⟨(sorted_month_keys obs).getD i 0,
     ((obs.filter (fun o => monthKey o = (sorted_month_keys obs).getD i 0)).map
       Observation.oil_volume).sum,
     ((obs.filter (fun o => monthKey o = (sorted_month_keys obs).getD i 0)).map
       Observation.gas_volume).sum,
     ((obs.filter (fun o => monthKey o = (sorted_month_keys obs).getD i 0)).map
       Observation.water_volume).sum,
     i⟩)

/-- Source line 122: recent_data = monthly[monthly['months_on_production'] >= 70],
the hardcoded fitting window. -/
def recent_data (monthly : List MonthlyPeriod) : List MonthlyPeriod :=
  monthly.filter (fun p => 70 ≤ p.months_on_production)

/-- Source line 125: t = (recent_data['months_on_production'] - 70).values, the
window's time axis re-based to start at 0. -/
def fit_t (monthly : List MonthlyPeriod) : List ℕ :=
  (recent_data monthly).map (fun p => p.months_on_production - 70)

/-- Source line 164: time_future = np.arange(20, 210), the fixed future time
grid (in window-relative months) used for the reserve integral. -/
def time_future : List ℝ := (List.range 190).map (fun i => ((20 + i : ℕ) : ℝ))

/-- Source line 166: future_reserves = np.trapezoid(production_future,
time_future) with production_future = hyperbolic_decline(time_future, ...). -/
noncomputable def future_reserves (qi Di b : ℝ) : ℝ :=
  np_trapz (time_future.map (fun t => hyperbolic_decline t qi Di b)) time_future

/-- The reserve figures the analysis reports (source lines 163-173 and the
decline_parameters row, lines 243-253). -/
structure EstimationResult where
  cumulative_to_date : ℝ
  future_reserves : ℝ
  eur : ℝ
  remaining_reserves : ℝ

/-- Source lines 163-173: cumulative_to_date = monthly['oil_volume'].sum() over
the entire aggregated series, eur = cumulative_to_date + future_reserves, and
remaining_reserves = future_reserves. -/
noncomputable def estimate (monthly : List MonthlyPeriod) (qi Di b : ℝ) :
    EstimationResult :=
  ⟨(monthly.map MonthlyPeriod.oil_volume).sum,
   future_reserves qi Di b,
   (monthly.map MonthlyPeriod.oil_volume).sum + future_reserves qi Di b,
   future_reserves qi Di b⟩

/-- One row of the forecast dataframe (source lines 195-199): a calendar month
index, the future months_on_production counter, and the predicted volume. -/
structure ForecastPoint where
  forecast_date : ℕ
  months_on_production : ℕ
  predicted_oil : ℝ

/-- Source lines 182-199 with the literal constants as parameters: the forecast
evaluates hyperbolic_decline on np.arange(start_offset, start_offset +
forecast_months), attaches pd.date_range(anchor + 1 month, periods =
forecast_months, freq MS) as calendar months (modelled as consecutive month
indices), and carries months_on_production = np.arange(90, 90 +
forecast_months).  The source instantiates start_offset = 20,
forecast_months = 120, anchor = the last historical month. -/
noncomputable def generate_forecast (qi Di b : ℝ)
    (start_offset forecast_months anchor : ℕ) : List ForecastPoint :=
  (List.range forecast_months).map (fun i =>
    ⟨anchor + 1 + i, 90 + i,
     hyperbolic_decline ((start_offset + i : ℕ) : ℝ) qi Di b⟩)

/-- Source line 141: bounds=([0, 0, 0], [np.inf, 1, 2]) passed to curve_fit.
The np.inf upper bound on qi imposes no constraint. -/
def curve_fit_bounds (qi Di b : ℝ) : Prop :=
  (0 ≤ qi) ∧ (0 ≤ Di ∧ Di ≤ 1) ∧ (0 ≤ b ∧ b ≤ 2)

/-- Modelled from the spec: the declared parameter domain qi ≥ 0, Di ∈ [0, 1],
b ∈ [0, 2] that every successfully fitted parameter set is claimed to satisfy
(refinement target for the box constraints the code passes to the optimizer). -/
def declared_domain_spec (qi Di b : ℝ) : Prop :=
  0 ≤ qi ∧ Di ∈ Set.Icc (0 : ℝ) 1 ∧ b ∈ Set.Icc (0 : ℝ) 2

/-- A three-observation demonstration input: two January 2020 rows and one
March 2020 row (a calendar gap before the second group). -/
def demoObs : List Observation :=
  [⟨2020, 1, 5, 10, 2, 3⟩, ⟨2020, 1, 20, 20, 4, 6⟩, ⟨2020, 3, 1, 7, 1, 2⟩]

/-- The aggregated March 2020 row of demoObs: month key 2020*12 + 3, the sums
of the single March observation's volumes, and rank 1. -/
noncomputable def demoAgg1 : MonthlyPeriod :=
  ⟨24243,
   ((demoObs.filter (fun o => monthKey o = 24243)).map Observation.oil_volume).sum,
   ((demoObs.filter (fun o => monthKey o = 24243)).map Observation.gas_volume).sum,
   ((demoObs.filter (fun o => monthKey o = 24243)).map Observation.water_volume).sum,
   1⟩

/-- A 90-period monthly series with months_on_production 0..89 (the length the
source's hardcoded window assumes). -/
def monthly90 : List MonthlyPeriod :=
  (List.range 90).map (fun i => ⟨i, 0, 0, 0, i⟩)

/-- A 21-period monthly series with months_on_production 0..20. -/
def monthly21 : List MonthlyPeriod :=
  (List.range 21).map (fun i => ⟨i, 0, 0, 0, i⟩)

end

/-- Claim C1: the decline-rate function is claimed to special-case b = 0 so that
rate(t, qi, Di, 0) = qi * exp(-Di*t) without evaluating 1/b.  The code has no
such branch: at t = 1, qi = 1, Di = 1, b = 0 the general formula evaluates to
qi = 1, which differs from the claimed exponential value exp(-1). -/
theorem hyperbolic_decline_at_b_zero :
    hyperbolic_decline 1 1 1 0 = 1 ∧
    hyperbolic_decline 1 1 1 0 ≠ 1 * Real.exp (-(1 * 1)) := by
  have h1 : hyperbolic_decline 1 1 1 0 = 1 := by
    simp [hyperbolic_decline, Real.one_rpow]
  refine ⟨h1, ?_⟩
  rw [h1, one_mul]
  have hlt : Real.exp (-(1 * 1)) < 1 := by
    rw [one_mul, Real.exp_neg]
    have h2 : (1 : ℝ) < Real.exp 1 := by
      have := Real.exp_one_gt_d9
      linarith
    exact inv_lt_one_of_one_lt₀ h2
  exact ne_of_gt hlt

/-- The sum of a list all of whose elements equal c is the length times c. -/
theorem sum_const_of_mem (q : List ℝ) (c : ℝ) (h : ∀ x ∈ q, x = c) :
    q.sum = q.length * c := by
  induction q with
  | nil => simp
  | cons a t ih =>
    have ha : a = c := h a (by simp)
    have ht := ih (fun x hx => h x (by simp [hx]))
    simp only [List.sum_cons, List.length_cons, ha, ht]
    push_cast
    ring

/-- Claim C2 (counterexample): on the constant window [5, 5, 5] the code
computes ss_tot = 0 and its r_squared division is undefined (NaN, modelled
none); no DegenerateDataError is raised — no such error exists in the code. -/
theorem r_squared_constant_window_nan : r_squared [5, 5, 5] [4, 5, 6] = none := by
  have hs : ss_tot [5, 5, 5] = 0 := by
    norm_num [ss_tot, mean]
  rw [r_squared, if_pos hs]

/-- Claim C2 (amended): for every fitting window of constant volumes the total
sum of squares around the mean is 0 and the code's r_squared = 1 -
ss_res/ss_tot is the undefined IEEE quotient (modelled none); the fit does not
fail with a DegenerateDataError — the analysis continues with the undefined
r_squared. -/
theorem r_squared_constant_window (q q_pred : List ℝ) (c : ℝ)
    (h : ∀ x ∈ q, x = c) :
    ss_tot q = 0 ∧ r_squared q q_pred = none := by
  have hs : ss_tot q = 0 := by
    rcases q with _ | ⟨a, t⟩
    · simp [ss_tot]
    · have hmean : mean (a :: t) = c := by
        have hsum := sum_const_of_mem (a :: t) c h
        rw [mean, hsum]
        exact mul_div_cancel_left₀ c
          (Nat.cast_ne_zero.mpr (Nat.succ_ne_zero t.length))
      rw [ss_tot]
      apply List.sum_eq_zero
      intro y hy
      rw [List.mem_map] at hy
      obtain ⟨x, hx, rfl⟩ := hy
      rw [hmean, h x hx]
      ring
  exact ⟨hs, by rw [r_squared, if_pos hs]⟩

/-- Witness for C2: the constant window [5, 5] has zero variance and an
undefined r_squared. -/
theorem r_squared_constant_window_witness :
    ss_tot [5, 5] = 0 ∧ r_squared [5, 5] [] = none :=
  r_squared_constant_window [5, 5] [] 5 (by intro x hx; fin_cases hx <;> rfl)

/-- Claim C3 (counterexample): at the spec's example scenario qi = 1000,
Di = 0.10, b = 0, economic_limit = 10 the reserve estimator divides by
b * Di = 0 while computing t_max and fails with ZeroDivisionError; it does not
use an exponential form and yields neither t_max = ln(100)/0.10 nor
future_reserves = 9900. -/
theorem calculate_eur_b_zero_fails :
    calculate_eur 1000 (1 / 10) 0 10 = Except.error PyError.zeroDivisionError := by
  simp [calculate_eur]

/-- Claim C3 (amended): for b > 0, Di > 0 and a positive economic limit the
estimator computes t_max by the algebraic inversion and this t_max is exactly
the time at which the predicted rate reaches the cutoff, after which
calculate_eur trapezoid-integrates the rate over the 1000-point grid
np.linspace(0, t_max, 1000); at b = 0 there is no exponential special case —
the t_max division by b * Di = 0 fails with ZeroDivisionError. -/
theorem t_max_reaches_economic_limit (qi Di b el : ℝ)
    (hqi : 0 < qi) (hDi : 0 < Di) (hb : 0 < b) (hel : 0 < el) :
    hyperbolic_decline (t_max qi Di b el) qi Di b = el ∧
    calculate_eur qi Di b el = Except.ok (np_trapz
      ((linspace 0 (t_max qi Di b el) 1000).map
        (fun t => hyperbolic_decline t qi Di b))
      (linspace 0 (t_max qi Di b el) 1000)) := by
  have hbDi : b * Di ≠ 0 := by positivity
  constructor
  · unfold hyperbolic_decline t_max
    have hbase : 1 + b * Di * (((qi / el) ^ b - 1) / (b * Di)) = (qi / el) ^ b := by
      rw [← mul_div_assoc, mul_div_cancel_left₀ _ hbDi]
      ring
    rw [hbase, ← Real.rpow_mul (le_of_lt (div_pos hqi hel)),
      mul_one_div_cancel (ne_of_gt hb), Real.rpow_one]
    rw [div_div_eq_mul_div, mul_comm, mul_div_cancel_right₀ _ (ne_of_gt hqi)]
  · have hcond : ¬(el = 0 ∨ b * Di = 0) := by
      push_neg
      exact ⟨ne_of_gt hel, hbDi⟩
    simp only [calculate_eur, if_neg hcond]

/-- Witness for C3: with qi = 1000, Di = 0.10, b = 1, limit = 10 the computed
t_max satisfies rate(t_max) = 10. -/
theorem t_max_reaches_economic_limit_witness :
    hyperbolic_decline (t_max 1000 (1 / 10) 1 10) 1000 (1 / 10) 1 = 10 :=
  (t_max_reaches_economic_limit 1000 (1 / 10) 1 10 (by norm_num) (by norm_num)
    (by norm_num) (by norm_num)).1

/-- Claim C4 (counterexample): with Di = 0 (here qi = 1000 above the cutoff 10,
b = 1) the reserve estimator divides by b * Di = 0 and fails with an unhandled
ZeroDivisionError; it does not signal an UnboundedReserveError — no such error
exists in the code. -/
theorem calculate_eur_Di_zero_zero_division :
    calculate_eur 1000 0 1 10 = Except.error PyError.zeroDivisionError := by
  simp [calculate_eur]

/-- Claim C4 (amended): for every parameter set with Di = 0 the reserve
estimator fails with ZeroDivisionError from the t_max division by b * Di = 0
(so it neither loops indefinitely nor silently returns infinity), but the
failure is an unhandled arithmetic error, not a detected UnboundedReserveError. -/
theorem calculate_eur_Di_zero (qi b el : ℝ) :
    calculate_eur qi 0 b el = Except.error PyError.zeroDivisionError := by
  simp [calculate_eur]

/-- Claim C6: for every analysis run the estimation result satisfies
eur = cumulative_to_date + future_reserves and remaining_reserves =
future_reserves, with cumulative_to_date the oil-volume sum over the entire
aggregated monthly series (not just the fitting window). -/
theorem estimate_eur_decomposition (obs : List Observation) (qi Di b : ℝ) :
    (estimate (aggregate obs) qi Di b).eur =
      (estimate (aggregate obs) qi Di b).cumulative_to_date +
        (estimate (aggregate obs) qi Di b).future_reserves ∧
    (estimate (aggregate obs) qi Di b).remaining_reserves =
      (estimate (aggregate obs) qi Di b).future_reserves ∧
    (estimate (aggregate obs) qi Di b).cumulative_to_date =
      ((aggregate obs).map MonthlyPeriod.oil_volume).sum :=
  ⟨rfl, rfl, rfl⟩

/-- Claim C9: for qi > 0, Di ≥ 0 and b ∈ (0, 2] the decline rate is
non-increasing in t on t ≥ 0, and rate(0) = qi exactly. -/
theorem hyperbolic_decline_antitone (qi Di b t1 t2 : ℝ)
    (hqi : 0 < qi) (hDi : 0 ≤ Di) (hb : 0 < b) (_hb2 : b ≤ 2)
    (ht1 : 0 ≤ t1) (ht : t1 ≤ t2) :
    hyperbolic_decline t2 qi Di b ≤ hyperbolic_decline t1 qi Di b ∧
    hyperbolic_decline 0 qi Di b = qi := by
  constructor
  · unfold hyperbolic_decline
    have hco : 0 ≤ b * Di := mul_nonneg hb.le hDi
    have h1 : (0:ℝ) < 1 + b * Di * t1 := by
      have := mul_nonneg hco ht1
      linarith
    have h12 : 1 + b * Di * t1 ≤ 1 + b * Di * t2 := by
      have := mul_le_mul_of_nonneg_left ht hco
      linarith
    have hA1 : (0:ℝ) < (1 + b * Di * t1) ^ ((1:ℝ)/b) :=
      Real.rpow_pos_of_pos h1 _
    have hA2 : (0:ℝ) < (1 + b * Di * t2) ^ ((1:ℝ)/b) :=
      Real.rpow_pos_of_pos (lt_of_lt_of_le h1 h12) _
    have hA12 : (1 + b * Di * t1) ^ ((1:ℝ)/b) ≤ (1 + b * Di * t2) ^ ((1:ℝ)/b) :=
      Real.rpow_le_rpow h1.le h12 (by positivity)
    rw [div_le_div_iff₀ hA2 hA1]
    exact mul_le_mul_of_nonneg_left hA12 hqi.le
  · unfold hyperbolic_decline
    simp [Real.one_rpow]

/-- Witness for C9: at qi = 2, Di = 1, b = 1 the rate at t = 1 is at most the
rate at t = 0, and the rate at 0 is exactly 2. -/
theorem hyperbolic_decline_antitone_witness :
    hyperbolic_decline 1 2 1 1 ≤ hyperbolic_decline 0 2 1 1 ∧
    hyperbolic_decline 0 2 1 1 = 2 :=
  hyperbolic_decline_antitone 2 1 1 0 1 (by norm_num) (by norm_num)
    (by norm_num) (by norm_num) (by norm_num) (by norm_num)

/-- Claim C10: the box constraints the code passes to the optimizer
(bounds=([0,0,0],[np.inf,1,2])) coincide with the declared parameter domain
qi ≥ 0, Di ∈ [0,1], b ∈ [0,2]; assuming the optimizer's contract of returning
parameters within the supplied bounds, every successful fit hands downstream
computations in-domain parameters. -/
theorem fit_bounds_refine_domain (qi Di b : ℝ) :
    curve_fit_bounds qi Di b ↔ declared_domain_spec qi Di b := by
  unfold curve_fit_bounds declared_domain_spec
  simp only [Set.mem_Icc]

/-- Claim C7: for every parameter set, start offset, horizon length and anchor
month the forecast has exactly the requested length (never truncating early),
its i-th point carries the calendar month anchor + 1 + i (one period per step
from the anchor, hence strictly increasing dates) and predicted volume equal to
the decline rate at the corresponding offset time start_offset + i. -/
theorem generate_forecast_spec (qi Di b : ℝ) (so fm anchor : ℕ) :
    (generate_forecast qi Di b so fm anchor).length = fm ∧
    (∀ i, i < fm → (generate_forecast qi Di b so fm anchor)[i]? =
      some ⟨anchor + 1 + i, 90 + i, hyperbolic_decline ((so + i : ℕ) : ℝ) qi Di b⟩) ∧
    List.Pairwise (fun a b => a < b)
      ((generate_forecast qi Di b so fm anchor).map ForecastPoint.forecast_date) := by
  refine ⟨by simp [generate_forecast], ?_, ?_⟩
  · intro i hi
    simp [generate_forecast, List.getElem?_range, hi]
  · rw [generate_forecast, List.map_map]
    have hf : (ForecastPoint.forecast_date ∘ fun i =>
        (⟨anchor + 1 + i, 90 + i,
          hyperbolic_decline ((so + i : ℕ) : ℝ) qi Di b⟩ : ForecastPoint)) =
        fun i => anchor + 1 + i := rfl
    rw [hf]
    refine List.pairwise_map.mpr ?_
    exact (List.pairwise_lt_range fm).imp (fun h => by omega)

/-- Witness for C7: a 3-step forecast anchored at month 100 with offset 20 has
its point at index 2 dated 103 with predicted volume rate(22). -/
theorem generate_forecast_spec_witness :
    (generate_forecast 1 1 1 20 3 100)[2]? =
      some ⟨103, 92, hyperbolic_decline ((22 : ℕ) : ℝ) 1 1 1⟩ :=
  (generate_forecast_spec 1 1 1 20 3 100).2.1 2 (by norm_num)

/-- On a monthly series whose element at index i has months_on_production
k + i, the source's window filter keeps exactly the suffix from position
70 - k. -/
theorem filter_window_eq_drop (l : List MonthlyPeriod) : ∀ k : ℕ,
    (∀ i (h : i < l.length), l[i].months_on_production = k + i) →
    List.filter (fun p => 70 ≤ p.months_on_production) l = l.drop (70 - k) := by
  induction l with
  | nil => intro k _; simp
  | cons p t ih =>
    intro k h
    have hp : p.months_on_production = k := by simpa using h 0 (by simp)
    have ht : ∀ i (hi : i < t.length), t[i].months_on_production = (k + 1) + i := by
      intro i hi
      have hlt : i + 1 < (p :: t).length := by
        simp only [List.length_cons]
        omega
      have h2 := h (i + 1) hlt
      simp only [List.getElem_cons_succ] at h2
      omega
    have ht' := ih (k + 1) ht
    by_cases hk : 70 ≤ k
    · have hd : 70 - k = 0 := by omega
      have hd' : 70 - (k + 1) = 0 := by omega
      rw [hd', List.drop_zero] at ht'
      rw [List.filter_cons, if_pos (by simp [hp, hk]), ht', hd, List.drop_zero]
    · have hd : 70 - k = (70 - (k + 1)) + 1 := by omega
      rw [List.filter_cons, if_neg (by simp [hp, hk]), ht', hd,
        List.drop_succ_cons]

/-- Claim C5 (counterexample): on a 21-period monthly series (ranks 0..20) the
window filter months_on_production >= 70 keeps nothing, so the fitter does not
receive the last 20 periods of that series. -/
theorem recent_data_not_last_twenty :
    recent_data monthly21 = [] ∧ monthly21.length = 21 ∧
    recent_data monthly21 ≠ monthly21.drop (monthly21.length - 20) := by
  have h1 : recent_data monthly21 = [] := by
    rw [recent_data, List.filter_eq_nil_iff]
    intro p hp
    rw [monthly21, List.mem_map] at hp
    obtain ⟨i, hi, rfl⟩ := hp
    rw [List.mem_range] at hi
    simp
    omega
  refine ⟨h1, by simp [monthly21], ?_⟩
  rw [h1]
  intro hcontra
  have hlen := congrArg List.length hcontra
  simp [monthly21] at hlen

/-- Claim C5 (amended): the fitting window is the subsequence with
months_on_production >= 70 with time re-based by t = months_on_production - 70;
for a series of exactly 90 sequentially ranked periods this is the last 20
periods and the re-based times are 0..19, but not for other series lengths. -/
theorem recent_data_window_of_ninety (monthly : List MonthlyPeriod)
    (hidx : ∀ i (h : i < monthly.length), monthly[i].months_on_production = i)
    (hlen : monthly.length = 90) :
    recent_data monthly = monthly.drop 70 ∧ (monthly.drop 70).length = 20 ∧
    fit_t monthly = List.range 20 := by
  have h0 : ∀ i (h : i < monthly.length),
      monthly[i].months_on_production = 0 + i := by
    intro i h
    simpa using hidx i h
  have hrd : recent_data monthly = monthly.drop 70 := by
    have := filter_window_eq_drop monthly 0 h0
    simpa [recent_data] using this
  refine ⟨hrd, by simp [hlen], ?_⟩
  have hft : fit_t monthly =
      (monthly.drop 70).map (fun p => p.months_on_production - 70) := by
    unfold fit_t
    rw [hrd]
  rw [hft]
  apply List.ext_getElem
  · simp [hlen]
  · intro i h1 h2
    have h2' : i < 20 := by simpa using h2
    have h3 : 70 + i < monthly.length := by omega
    simp only [List.getElem_map, List.getElem_drop, List.getElem_range]
    rw [hidx (70 + i) h3]
    omega

/-- Witness for C5: the canonical 90-period series is windowed to its last 20
periods with re-based times 0..19. -/
theorem recent_data_window_of_ninety_witness :
    recent_data monthly90 = monthly90.drop 70 ∧
    (monthly90.drop 70).length = 20 ∧ fit_t monthly90 = List.range 20 :=
  recent_data_window_of_ninety monthly90
    (by intro i h; simp [monthly90]) (by simp [monthly90])

/-- Mapping position-wise default lookup over the index range rebuilds the
list. -/
theorem map_getD_range (l : List ℕ) :
    (List.range l.length).map (fun i => l.getD i 0) = l := by
  apply List.ext_getElem
  · simp
  · intro i h1 h2
    simp only [List.getElem_map, List.getElem_range]
    exact List.getD_eq_getElem l 0 h2

/-- The year_month column of the aggregated table is exactly the sorted list of
distinct calendar-month keys. -/
theorem aggregate_map_year_month (obs : List Observation) :
    (aggregate obs).map MonthlyPeriod.year_month = sorted_month_keys obs := by
  unfold aggregate
  rw [List.map_map]
  exact map_getD_range (sorted_month_keys obs)

/-- The distinct month keys are strictly increasing: sorting is by a total
order and deduplication leaves no repeats. -/
theorem sorted_month_keys_sorted (obs : List Observation) :
    List.Sorted (fun a b => a < b) (sorted_month_keys obs) := by
  have hs : List.Sorted (fun a b => a ≤ b) (sorted_month_keys obs) :=
    List.sorted_insertionSort _ _
  have hn : (sorted_month_keys obs).Nodup :=
    ((List.perm_insertionSort _ _).nodup_iff).mpr (List.nodup_dedup _)
  exact hs.lt_of_le hn

/-- Claim C8: aggregation of an empty observation list is the empty monthly
series; for every observation list the emitted periods are in strictly
increasing calendar-month order, one per observed month (a month key appears in
the output iff some observation carries it), and the period stored at index i
has months_on_production = i (0-based rank, increasing by exactly 1 regardless
of calendar gaps) and oil_volume, gas_volume and water_volume equal to the sums
of the respective volumes of the observations of its calendar month. -/
theorem aggregate_spec :
    aggregate ([] : List Observation) = [] ∧
    (∀ obs : List Observation,
      List.Sorted (fun a b => a < b)
        ((aggregate obs).map MonthlyPeriod.year_month)) ∧
    (∀ obs : List Observation, ∀ k : ℕ,
      k ∈ (aggregate obs).map MonthlyPeriod.year_month ↔ k ∈ obs.map monthKey) ∧
    (∀ obs : List Observation, ∀ i : ℕ, ∀ p : MonthlyPeriod,
      (aggregate obs)[i]? = some p →
        p.months_on_production = i ∧
        p.oil_volume = ((obs.filter (fun o => monthKey o = p.year_month)).map
          Observation.oil_volume).sum ∧
        p.gas_volume = ((obs.filter (fun o => monthKey o = p.year_month)).map
          Observation.gas_volume).sum ∧
        p.water_volume = ((obs.filter (fun o => monthKey o = p.year_month)).map
          Observation.water_volume).sum) := by
  refine ⟨rfl, ?_, ?_, ?_⟩
  · intro obs
    rw [aggregate_map_year_month]
    exact sorted_month_keys_sorted obs
  · intro obs k
    rw [aggregate_map_year_month]
    unfold sorted_month_keys
    rw [(List.perm_insertionSort _ _).mem_iff, List.mem_dedup]
  · intro obs i p hp
    have hi : i < (aggregate obs).length := by
      by_contra hcon
      rw [List.getElem?_eq_none (le_of_not_lt hcon)] at hp
      exact Option.noConfusion hp
    rw [List.getElem?_eq_getElem hi] at hp
    have hp' := Option.some.inj hp
    rw [← hp']
    refine ⟨?_, ?_, ?_, ?_⟩
    · simp [aggregate]
    · simp [aggregate]
    · simp [aggregate]
    · simp [aggregate]

/-- Witness for C8: on the three-row demonstration input (two January 2020
observations, one March 2020 observation) the period at index 1 is the March
group: rank 1 despite the skipped February, with its oil, gas and water sums. -/
theorem aggregate_spec_witness :
    demoAgg1.months_on_production = 1 ∧
    demoAgg1.oil_volume = ((demoObs.filter
      (fun o => monthKey o = demoAgg1.year_month)).map
        Observation.oil_volume).sum ∧
    demoAgg1.gas_volume = ((demoObs.filter
      (fun o => monthKey o = demoAgg1.year_month)).map
        Observation.gas_volume).sum ∧
    demoAgg1.water_volume = ((demoObs.filter
      (fun o => monthKey o = demoAgg1.year_month)).map
        Observation.water_volume).sum :=
  aggregate_spec.2.2.2 demoObs 1 demoAgg1 rfl
